import Mathlib

/-
  Verification of the pcap ingestion & classification pipeline
  (src/backend/pcap_parser.py, src/backend/reprocess_dns.py,
   src/backend/main.py cancel_analysis).

  The Python code is shallowly embedded: frames are modelled as the
  decode results dpkt hands back (dpkt is an external library; a frame
  whose raw bytes make dpkt.ethernet.Ethernet raise is modelled by
  eth = none), and the body of parse_and_ingest_pcap_sync is translated
  statement by statement into a state-passing function.  The ClickHouse
  store is modelled by the lists of rows inserted; the shared
  ANALYSIS_PROGRESS entry is modelled by the status field of the state
  (the progress/message fields are written by the code but never read
  by it, and no claim is about them).
-/

namespace Pcap

/-- TCP header fields used by the loop (dpkt.tcp.TCP). -/
structure TcpHdr where
  sport : Nat
  dport : Nat
  seq : Nat
  ack : Nat
  flags : Nat

/-- UDP header fields used by the loop (dpkt.udp.UDP). -/
structure UdpHdr where
  sport : Nat
  dport : Nat
  ulen : Nat

/-- The payload of a decoded IPv4/IPv6 packet, as classified by the
isinstance checks of the loop.  raw stands for any payload that is
neither a parsed TCP, UDP nor ICMP object. -/
inductive IpData where
  | tcp (t : TcpHdr)
  | udp (u : UdpHdr)
  | icmp (ty code : Nat)
  | raw

/-- A decoded IPv4 or IPv6 packet (dpkt.ip.IP / dpkt.ip6.IP6); src and
dst are already rendered through inet_to_str. -/
structure IpPkt where
  isV4 : Bool
  src : String
  dst : String
  protoNum : Nat
  len : Nat
  ttl : Nat
  data : IpData

/-- ARP fields used by the loop (sender/target protocol addresses,
already rendered through inet_to_str). -/
structure ArpData where
  spa : String
  tpa : String

/-- The data attribute of an Ethernet (or VLAN/MPLS tag) object.  A
tagged node models a dpkt 802.1Q/802.1ad/MPLS object: it carries its
own inner ethertype and its own data attribute. -/
inductive EthBody where
  | ip (p : IpPkt)
  | arp (a : ArpData)
  | tagged (ty : Nat) (inner : EthBody)
  | raw

/-- A successfully decoded Ethernet frame (dpkt.ethernet.Ethernet). -/
structure EthFrame where
  ethType : Nat
  body : EthBody

/-- One (timestamp, raw bytes) pair yielded by the capture reader.
eth = none models a buffer on which dpkt.ethernet.Ethernet(buf) raises
(for example 4 bytes of garbage, shorter than the 14 byte header). -/
structure Frame where
  ts : Nat
  len : Nat
  eth : Option EthFrame

/-- IP_PROTOCOLS table of pcap_parser.py. -/
def IP_PROTOCOLS : List (Nat × String) :=
  [(1, "ICMP"), (2, "IGMP"), (4, "IP-in-IP"), (6, "TCP"), (17, "UDP"),
   (27, "RDP"), (41, "IPv6"), (47, "GRE"), (50, "ESP"), (51, "AH"),
   (58, "ICMPv6"), (88, "EIGRP"), (89, "OSPF"), (103, "PIM"),
   (112, "VRRP"), (115, "L2TP"), (132, "SCTP"), (137, "MPLS-in-IP")]

/-- IP_PROTOCOLS.get(p, f'Proto-{p}'). -/
def ipProtoName (p : Nat) : String :=
  ((IP_PROTOCOLS.lookup p).getD ("Proto-" ++ toString p))

/-- Ethertypes stripped by the unwrap loop: ETH_TYPE_8021Q,
ETH_TYPE_8021AD, ETH_TYPE_MPLS, ETH_TYPE_MPLS_MCAST. -/
def isTagTy (t : Nat) : Bool :=
  t == 0x8100 || t == 0x88A8 || t == 0x8847 || t == 0x8848

/-- The combination of the tag-stripping while loop (pkt = pkt.data
while pkt.type is a VLAN/MPLS ethertype) and the following check
hasattr(pkt, 'data') and isinstance(pkt.data, IP or IP6): returns the
IP packet found, if any.  Arguments are the current object's type
attribute and its data attribute. -/
def findIp : Nat → EthBody → Option IpPkt
  | ty, .tagged t i => if isTagTy ty then findIp t i else none
  | ty, .ip p => if isTagTy ty then none else some p
  | _, _ => none

/-- Flag names appended for the TCP info string, in source order
(SYN, ACK, RST, FIN, PSH with masks 2, 16, 4, 1, 8). -/
def tcpFlagNames (flags : Nat) : List String :=
  (if Nat.land flags 2 != 0 then ["SYN"] else []) ++
  (if Nat.land flags 16 != 0 then ["ACK"] else []) ++
  (if Nat.land flags 4 != 0 then ["RST"] else []) ++
  (if Nat.land flags 1 != 0 then ["FIN"] else []) ++
  (if Nat.land flags 8 != 0 then ["PSH"] else [])

/-- One row of the packets table, as appended to
packets_to_insert_rows.  pcap_id is constant over a run and omitted;
layers_json is modelled by the list of layer names appended to
layers_data (the only part of it any claim reads). -/
structure PacketRow where
  ts : Nat
  packetNumber : Nat
  srcIp : String
  dstIp : String
  srcPort : Nat
  dstPort : Nat
  protocol : String
  length : Nat
  fileOffset : Nat
  info : String
  layerNames : List String

/-- Name of the IP layer appended to layers_data. -/
def ipLayerName (p : IpPkt) : String := if p.isV4 then "ip" else "ipv6"

/-- The per-frame body of the packet loop of parse_and_ingest_pcap_sync
(lines 469-601): defaults, tag unwrapping, IP/ARP branch, protocol
classification including the well-known-port heuristics, info string
and layers_data construction.  num is packet_num_counter after its
increment for this frame. -/
def processFrame (num : Nat) (f : Frame) (e : EthFrame) : PacketRow :=
  match findIp e.ethType e.body with
  | some p =>
    match p.data with
    | .tcp t =>
      let protocol :=
        if t.sport == 80 || t.dport == 80 || t.sport == 8080 || t.dport == 8080 then "HTTP"
        else if t.sport == 443 || t.dport == 443 then "TLS"
        else if t.sport == 53 || t.dport == 53 then "DNS"
        else "TCP"
      { ts := f.ts, packetNumber := num, srcIp := p.src, dstIp := p.dst,
        srcPort := t.sport, dstPort := t.dport, protocol := protocol,
        length := f.len, fileOffset := 0,
        info := toString t.sport ++ " -> " ++ toString t.dport ++ " [" ++
          String.intercalate " " (tcpFlagNames t.flags) ++ "] Seq=" ++
          toString t.seq ++ " Ack=" ++ toString t.ack,
        layerNames := ["frame", "eth", ipLayerName p] ++
          (if protocol == "TCP" then ["tcp"]
           else if protocol == "UDP" then ["udp"] else []) }
    | .udp u =>
      let protocol := if u.sport == 53 || u.dport == 53 then "DNS" else "UDP"
      { ts := f.ts, packetNumber := num, srcIp := p.src, dstIp := p.dst,
        srcPort := u.sport, dstPort := u.dport, protocol := protocol,
        length := f.len, fileOffset := 0,
        info := toString u.sport ++ " -> " ++ toString u.dport ++ " Len=" ++ toString u.ulen,
        layerNames := ["frame", "eth", ipLayerName p] ++
          (if protocol == "TCP" then ["tcp"]
           else if protocol == "UDP" then ["udp"] else []) }
    | .icmp ty code =>
      { ts := f.ts, packetNumber := num, srcIp := p.src, dstIp := p.dst,
        srcPort := 0, dstPort := 0, protocol := "ICMP",
        length := f.len, fileOffset := 0,
        info := "Type=" ++ toString ty ++ " Code=" ++ toString code,
        layerNames := ["frame", "eth", ipLayerName p] }
    | .raw =>
      { ts := f.ts, packetNumber := num, srcIp := p.src, dstIp := p.dst,
        srcPort := 0, dstPort := 0, protocol := ipProtoName p.protoNum,
        length := f.len, fileOffset := 0, info := "",
        layerNames := ["frame", "eth", ipLayerName p] }
  | none =>
    match e.body with
    | .arp a =>
      { ts := f.ts, packetNumber := num, srcIp := "0.0.0.0", dstIp := "0.0.0.0",
        srcPort := 0, dstPort := 0, protocol := "ARP",
        length := f.len, fileOffset := 0,
        info := "Who has " ++ a.tpa ++ "? Tell " ++ a.spa,
        layerNames := ["frame", "eth"] }
    | _ =>
      { ts := f.ts, packetNumber := num, srcIp := "0.0.0.0", dstIp := "0.0.0.0",
        srcPort := 0, dstPort := 0, protocol := "Other",
        length := f.len, fileOffset := 0, info := "",
        layerNames := ["frame", "eth"] }

/-- The observable state of one ingestion job: the status field of its
ANALYSIS_PROGRESS entry (the progress and message fields are written
but never read back by the pipeline and are not modelled), the local
packets_to_insert_rows buffer, the rows so far inserted into the
packets table, the number of rows inserted into dns_log, the number of
rows inserted into pcap_metadata, and the loop counters. -/
structure St where
  status : String
  buffer : List PacketRow
  stored : List PacketRow
  dnsRows : Nat
  metaRows : Nat
  packetCount : Nat
  counter : Nat
  totalBytes : Nat

/-- batch_size of parse_and_ingest_pcap_sync. -/
def batchSize : Nat := 5000

/-- One iteration of the packet loop on frame f, with every insert
succeeding: counters are incremented for every frame, the frame is
skipped if dpkt.ethernet.Ethernet raised, otherwise its row is
buffered and the buffer flushed once it reaches batch_size. -/
def stepFrame (f : Frame) (st : St) : St :=
  let st1 : St := { st with counter := st.counter + 1,
                            packetCount := st.packetCount + 1,
                            totalBytes := st.totalBytes + f.len }
  match f.eth with
  | none => st1
  | some e =>
    let buf := st1.buffer ++ [processFrame st1.counter f e]
    if batchSize ≤ buf.length then
      { st1 with buffer := [], stored := st1.stored ++ buf }
    else
      { st1 with buffer := buf }

/-- The packet loop run to the end with no cancellation observed and
every insert succeeding. -/
def runFrames : List Frame → St → St
  | [], st => st
  | f :: rest, st => runFrames rest (stepFrame f st)

/-- Result of the packet loop: ran to the end of the capture, returned
early on an observed cancellation, or aborted by an exception raised
by a batch insert (the insert is not wrapped in try/except). -/
inductive LoopOut where
  | ok (st : St)
  | cancelled (st : St)
  | insertError (st : St)

/-- The packet loop of parse_and_ingest_pcap_sync (lines 449-617).
cancel i = true models the external cancellation request
(cancel_analysis in main.py setting status to cancelled) arriving
before the loop checks the status for the i-th frame (1-based over all
frames of the capture); insertOk = false models
get_ch_client().insert('packets', ...) raising. -/
def loop (cancel : Nat → Bool) (insertOk : Bool) : List Frame → St → LoopOut
  | [], st => .ok st
  | f :: rest, st =>
    let stc := if cancel (st.counter + 1) then { st with status := "cancelled" } else st
    if stc.status = "cancelled" then .cancelled stc
    else
      let st1 : St := { stc with counter := stc.counter + 1,
                                 packetCount := stc.packetCount + 1,
                                 totalBytes := stc.totalBytes + f.len }
      match f.eth with
      | none => loop cancel insertOk rest st1
      | some e =>
        let buf := st1.buffer ++ [processFrame st1.counter f e]
        if batchSize ≤ buf.length then
          if insertOk then
            loop cancel insertOk rest { st1 with buffer := [], stored := st1.stored ++ buf }
          else .insertError { st1 with buffer := buf }
        else loop cancel insertOk rest { st1 with buffer := buf }

/-- ingest_zeek_log for dns.log, abstracted to its effect on the
store: the processed records are inserted in batches, and a failing
batch insert is caught, printed and the batch discarded (the records
are lost and the function returns normally).  insertOk = false models
every batch insert of this log failing. -/
def ingestZeekDns (insertOk : Bool) (rows : Nat) (st : St) : St :=
  if insertOk then { st with dnsRows := st.dnsRows + rows } else st

/-- run_zeek_analysis.  The Zeek executable is external to the
repository, so its dns.log output is abstracted as a record count
(dnsRowCount); found = false models the executable missing (the
function returns before touching the job status).  When found, the
function first overwrites the job status with analyzing_zeek and then
ingests the logs. -/
def runZeekAnalysis (found insertOk : Bool) (dnsRowCount : Nat) (st : St) : St :=
  if found then
    ingestZeekDns insertOk dnsRowCount { st with status := "analyzing_zeek" }
  else st

/-- parse_and_ingest_pcap_sync over an already-opened capture: runs the
Zeek phase, unconditionally overwrites the job status with
processing_packets, runs the packet loop, and on normal loop exit
flushes the remaining buffer, inserts the pcap_metadata row and sets
the status to completed.  An insert exception (insertOk = false)
reaches the outer except handler, which sets the status to failed.
cancelDuringZeek = true models the external cancellation request
arriving while the Zeek phase runs (after its own status write, before
the processing_packets write); cancel models it arriving before a
given frame of the packet loop. -/
def parseAndIngestPcapSync (frames : List Frame) (zeekFound zeekInsertOk : Bool)
    (zeekDnsRows : Nat) (cancelDuringZeek : Bool) (cancel : Nat → Bool)
    (insertOk : Bool) : St :=
  let st0 : St := { status := "processing", buffer := [], stored := [], dnsRows := 0,
                    metaRows := 0, packetCount := 0, counter := 0, totalBytes := 0 }
  let st1 := runZeekAnalysis zeekFound zeekInsertOk zeekDnsRows st0
  let st2 := if cancelDuringZeek then { st1 with status := "cancelled" } else st1
  let st3 : St := { st2 with status := "processing_packets" }
  match loop cancel insertOk frames st3 with
  | .cancelled st => st
  | .insertError st => { st with status := "failed" }
  | .ok st =>
    if insertOk then
      let st4 : St := if st.buffer.isEmpty then st
                      else { st with stored := st.stored ++ st.buffer, buffer := [] }
      { st4 with metaRows := st4.metaRows + 1, status := "completed" }
    else { st with status := "failed" }

/-- Reference list of rows the loop produces for a capture, starting
from counter value c: one row per frame that decodes, numbered by its
1-based position among all frames. -/
def rowsOf : Nat → List Frame → List PacketRow
  | _, [] => []
  | c, f :: rest =>
    match f.eth with
    | none => rowsOf (c + 1) rest
    | some e => processFrame (c + 1) f e :: rowsOf (c + 1) rest

/-- Number of frames of a capture that decode successfully. -/
def countDecodable (frames : List Frame) : Nat :=
  (frames.filter (fun f => f.eth.isSome)).length

/-- The full batches of a row list, i.e. the rows a run flushes to the
store before reaching the end of the capture. -/
def flushedOf (r : List PacketRow) : List PacketRow :=
  r.take (batchSize * (r.length / batchSize))

/-- The rows of a row list still sitting in the buffer. -/
def unflushedOf (r : List PacketRow) : List PacketRow :=
  r.drop (batchSize * (r.length / batchSize))

/-- reprocess_dns.py: number of dns_log records the manual
reprocessing script inserts for a set of stored packet rows.  The
script selects the rows with protocol DNS, looks for a layer named
dns in the stored layers_json, and skips the row (continue) when no
such layer exists; only rows with a dns layer yield a record. -/
def reprocessDnsCount (rows : List PacketRow) : Nat :=
  (rows.filter (fun r => r.protocol == "DNS" && r.layerNames.contains "dns")).length

/-- Lowercase zero-padded 8-digit hex rendering, as Python format
specifier 08x produces for values below 16^8. -/
def hex8 (n : Nat) : String :=
  let s := String.mk (Nat.toDigits 16 n)
  String.mk (List.replicate (8 - s.length) '0') ++ s

/-- The synthetic session identifier of reprocess_dns.py line 100:
uid = "C" + format(hash(f"{src}{sport}{dst}{dport}{trans_id}{ts}") % 100000000, "08x").
Python's hash on str is salted per process (PYTHONHASHSEED), so the
hash function is a parameter: each process supplies its own. -/
def mkUid (pyhash : String → Int) (src : String) (sport : Nat) (dst : String)
    (dport : Nat) (transId : Nat) (ts : String) : String :=
  "C" ++ hex8 ((Int.emod (pyhash (src ++ toString sport ++ dst ++ toString dport ++
    toString transId ++ ts)) 100000000).toNat)

/-- A Python value as it occurs in a Zeek log record: None, str, int,
bool, float (exact, as a rational), a datetime produced by
datetime.fromtimestamp of a given epoch value, the nondeterministic
datetime.now() fallback, a list, or a nested dict. -/
inductive PyVal where
  | vNone
  | vStr (s : String)
  | vInt (n : Int)
  | vBool (b : Bool)
  | vFloat (q : Rat)
  | vTime (epoch : Rat)
  | vTimeNow
  | vList (xs : List PyVal)
  | vDict (kvs : List (String × PyVal))

/-- A Python dict with string keys, in insertion order. -/
abbrev PyDict := List (String × PyVal)

/-- Python's test record[col] is None. -/
def isVNone : PyVal → Bool
  | .vNone => true
  | _ => false

/-- Dict read. -/
def dictGet (d : PyDict) (k : String) : Option PyVal := List.lookup k d

/-- Dict assignment: updates the value in place when the key exists,
appends otherwise, as CPython dicts do. -/
def dictSet : PyDict → String → PyVal → PyDict
  | [], k, v => [(k, v)]
  | (k0, v0) :: rest, k, v =>
    if k0 = k then (k0, v) :: rest else (k0, v0) :: dictSet rest k v

/-- Python single-character str.split over a character list: splits at
every occurrence of the separator, keeping empty parts. -/
def splitOnChar (c : Char) : List Char → List (List Char)
  | [] => [[]]
  | x :: xs =>
    let r := splitOnChar c xs
    if x = c then [] :: r
    else
      match r with
      | [] => [[x]]
      | h :: t => (x :: h) :: t

/-- Python str.split(sep) for a one-character separator. -/
def pySplit (c : Char) (s : String) : List String :=
  (splitOnChar c s.data).map String.mk

/-- Prefix test over character lists. -/
def startsWithChars : List Char → List Char → Bool
  | [], _ => true
  | _ :: _, [] => false
  | p :: ps, x :: xs => p = x && startsWithChars ps xs

/-- Python str.startswith. -/
def pyStartsWith (pre s : String) : Bool := startsWithChars pre.data s.data

/-- The whitespace stripped by str.strip as it occurs in log lines. -/
def isPySpace (c : Char) : Bool := c = ' ' || c = '\t' || c = '\n' || c = '\r'

/-- Python str.strip(). -/
def pyStrip (s : String) : String :=
  String.mk (((s.data.dropWhile isPySpace).reverse.dropWhile isPySpace).reverse)

/-- Value of a digit string. -/
def digitsVal (l : List Char) : Nat :=
  l.foldl (fun a c => a * 10 + (c.toNat - 48)) 0

/-- Parses the decimal number strings occurring in Zeek logs the way
Python float() does: optional minus sign, digits, optional fractional
digits.  Returns none when the string is not of that shape (float()
raises there; the exotic float() forms, exponents and inf/nan, do not
occur in Zeek timestamps and are not modelled). -/
def parseDecimal (s : String) : Option Rat :=
  let core (l : List Char) : Option Rat :=
    match splitOnChar '.' l with
    | [a] =>
      if a ≠ [] ∧ a.all Char.isDigit then some ((digitsVal a : Int) : Rat) else none
    | [a, b] =>
      if a ≠ [] ∧ a.all Char.isDigit ∧ b ≠ [] ∧ b.all Char.isDigit then
        some (((digitsVal a : Int) : Rat) + mkRat (digitsVal b : Int) (10 ^ b.length))
      else none
    | _ => none
  match s.data with
  | '-' :: rest => (core rest).map Neg.neg
  | l => core l

/-- Python float(v) on the value kinds occurring in Zeek records. -/
def pyFloat : PyVal → Option Rat
  | .vInt n => some (n : Rat)
  | .vFloat q => some q
  | .vBool b => some (if b then 1 else 0)
  | .vStr s => parseDecimal s
  | _ => none

/-- Python str(v) for list element coercion ([str(x) for x in ...]). -/
def pyStr : PyVal → String
  | .vStr s => s
  | .vInt n => toString n
  | .vBool b => if b then "True" else "False"
  | .vNone => "None"
  | _ => ""

/-- Python int(float(v)) used for TTLs: truncation toward zero.  The
exception path (non-numeric element, which makes the caller drop the
whole record) is approximated by 0; no claim depends on it. -/
def pyIntOfFloat (v : PyVal) : Int :=
  match pyFloat v with
  | some q => q.num / (q.den : Int)
  | none => 0

/-- ZEEK_TABLE_COLUMNS['dns_log'], in source text order (the Python
value is a set; only membership is ever used, plus iteration for the
default fill, whose order does not affect any per-column lookup). -/
def dnsLogColumns : List String :=
  ["ts", "uid", "pcap_id", "id_orig_h", "id_orig_p", "id_resp_h", "id_resp_p",
   "proto", "trans_id", "query", "qclass", "qclass_name", "qtype", "qtype_name",
   "rcode", "rcode_name", "AA", "TC", "RD", "RA", "Z", "answers", "TTLs", "rejected"]

set_option maxHeartbeats 1000000

/-- ZEEK_COLUMN_DEFAULTS of pcap_parser.py (the duplicate literal key
version, present once for http_log and once for ssl_log with the same
value, appears once). -/
def ZEEK_COLUMN_DEFAULTS : List (String × PyVal) :=
  [("uid", .vStr ""), ("id_orig_h", .vStr ""), ("id_resp_h", .vStr ""),
   ("proto", .vStr ""), ("service", .vStr ""),
   ("id_orig_p", .vInt 0), ("id_resp_p", .vInt 0),
   ("duration", .vFloat 0), ("orig_bytes", .vInt 0), ("resp_bytes", .vInt 0),
   ("conn_state", .vStr ""), ("local_orig", .vBool false), ("local_resp", .vBool false),
   ("missed_bytes", .vInt 0), ("history", .vStr ""),
   ("orig_pkts", .vInt 0), ("orig_ip_bytes", .vInt 0), ("resp_pkts", .vInt 0),
   ("resp_ip_bytes", .vInt 0), ("tunnel_parents", .vList []),
   ("trans_id", .vInt 0), ("query", .vStr ""), ("qclass", .vInt 0),
   ("qclass_name", .vStr ""), ("qtype", .vInt 0), ("qtype_name", .vStr ""),
   ("rcode", .vInt 0), ("rcode_name", .vStr ""), ("AA", .vBool false),
   ("TC", .vBool false), ("RD", .vBool false), ("RA", .vBool false),
   ("Z", .vInt 0), ("answers", .vList []), ("TTLs", .vList []),
   ("rejected", .vBool false),
   ("trans_depth", .vInt 0), ("method", .vStr ""), ("host", .vStr ""),
   ("uri", .vStr ""), ("referrer", .vStr ""), ("version", .vStr ""),
   ("user_agent", .vStr ""), ("request_body_len", .vInt 0),
   ("response_body_len", .vInt 0), ("status_code", .vInt 0),
   ("status_msg", .vStr ""), ("tags", .vList []), ("username", .vStr ""),
   ("password", .vStr ""), ("proxied", .vList []),
   ("orig_fuids", .vList []), ("orig_filenames", .vList []),
   ("orig_mime_types", .vList []), ("resp_fuids", .vList []),
   ("resp_filenames", .vList []), ("resp_mime_types", .vList []),
   ("cipher", .vStr ""), ("curve", .vStr ""), ("server_name", .vStr ""),
   ("resumed", .vBool false), ("last_alert", .vStr ""),
   ("next_protocol", .vStr ""), ("established", .vBool false),
   ("cert_chain_fuids", .vList []), ("client_cert_chain_fuids", .vList []),
   ("subject", .vStr ""), ("issuer", .vStr ""), ("client_subject", .vStr ""),
   ("client_issuer", .vStr ""), ("validation_status", .vStr "")]

/-- Joins character-list parts with an underscore: together with
splitOnChar this is Python k.replace(".", "_"). -/
def joinUnderscore : List (List Char) → List Char
  | [] => []
  | [x] => x
  | x :: xs => x ++ '_' :: joinUnderscore xs

/-- The flattening step of process_zeek_record: a nested dict value is
expanded into key_subkey entries, a dotted key has its dots replaced
by underscores, everything else is kept. -/
def flattenRecord (r : PyDict) : PyDict :=
  r.foldr (fun kv acc =>
    match kv with
    | (k, .vDict kvs) => (kvs.map (fun sv => (k ++ "_" ++ sv.1, sv.2))) ++ acc
    | (k, v) =>
      (String.mk (joinUnderscore (splitOnChar '.' k.data)), v) :: acc) []

/-- The answers coercion of the dns_log branch. -/
def coerceAnswers (r : PyDict) : PyDict :=
  match dictGet r "answers" with
  | some (.vStr s) =>
    dictSet r "answers" (if s ≠ "-" then .vList ((pySplit ',' s).map PyVal.vStr) else .vList [])
  | some (.vList xs) => dictSet r "answers" (.vList (xs.map (fun x => .vStr (pyStr x))))
  | some _ => r
  | none => dictSet r "answers" (.vList [])

/-- The TTLs coercion of the dns_log branch. -/
def coerceTTLs (r : PyDict) : PyDict :=
  match dictGet r "TTLs" with
  | some (.vStr s) =>
    dictSet r "TTLs" (if s ≠ "-" then
      .vList ((pySplit ',' s).map (fun t => .vInt (pyIntOfFloat (.vStr t)))) else .vList [])
  | some (.vList xs) => dictSet r "TTLs" (.vList (xs.map (fun x => .vInt (pyIntOfFloat x))))
  | some _ => r
  | none => dictSet r "TTLs" (.vList [])

/-- The per-column default fill at the end of process_zeek_record: a
column missing or None gets its ZEEK_COLUMN_DEFAULTS value, ts falls
back to datetime.now(), pcap_id is left alone, anything else gets the
empty string. -/
def fillDefault (r : PyDict) (col : String) : PyDict :=
  match dictGet r col with
  | some v =>
    if isVNone v then
      match List.lookup col ZEEK_COLUMN_DEFAULTS with
      | some d => dictSet r col d
      | none => if col = "ts" then dictSet r col .vTimeNow
                else if col = "pcap_id" then r
                else dictSet r col (.vStr "")
    else r
  | none =>
    match List.lookup col ZEEK_COLUMN_DEFAULTS with
    | some d => dictSet r col d
    | none => if col = "ts" then dictSet r col .vTimeNow
              else if col = "pcap_id" then r
              else dictSet r col (.vStr "")

/-- process_zeek_record specialized to table_name = 'dns_log' (the only
table the claims exercise): set pcap_id, convert ts through
datetime.fromtimestamp(float(...)) with a datetime.now() fallback,
flatten nested or dotted keys, coerce answers and TTLs, drop columns
outside the dns_log schema and fill every missing or None column with
its default.  Note the dns_log branch coerces only answers and TTLs:
it has no boolean or integer coercions (unlike the conn_log and
ssl_log branches). -/
def processZeekRecordDns (record : PyDict) (pcapId : String) : PyDict :=
  let r1 := dictSet record "pcap_id" (.vStr pcapId)
  let r2 := match dictGet r1 "ts" with
    | some v =>
      match pyFloat v with
      | some q => dictSet r1 "ts" (.vTime q)
      | none => dictSet r1 "ts" .vTimeNow
    | none => r1
  let r3 := flattenRecord r2
  let r4 := coerceTTLs (coerceAnswers r3)
  let r5 := r4.filter (fun kv => dnsLogColumns.contains kv.1)
  dnsLogColumns.foldl fillDefault r5

/-- parse_zeek_ascii_log over the lines of a log file: tracks the
current #fields header, skips blank, #close and other comment lines,
and turns each data line whose tab-separated value count matches the
field count into a dict, with the - null sentinel becoming None. -/
def parseZeekAsciiLines : List String → List String → List PyDict
  | [], _ => []
  | l :: rest, fields =>
    let l := pyStrip l
    if l = "" then parseZeekAsciiLines rest fields
    else if pyStartsWith "#close" l then parseZeekAsciiLines rest fields
    else if pyStartsWith "#fields" l then parseZeekAsciiLines rest ((pySplit '\t' l).drop 1)
    else if pyStartsWith "#types" l then parseZeekAsciiLines rest fields
    else if pyStartsWith "#" l then parseZeekAsciiLines rest fields
    else
      let values := pySplit '\t' l
      if values.length ≠ fields.length then parseZeekAsciiLines rest fields
      else
        (List.zipWith (fun f v =>
          (f, if v = "-" then PyVal.vNone else PyVal.vStr v)) fields values) ::
        parseZeekAsciiLines rest fields

/-- Transport header of the TCP test frame: ports 12345 to 54321 (no
well-known port), SYN flag set. -/
def tcpA_hdr : TcpHdr := { sport := 12345, dport := 54321, seq := 7, ack := 0, flags := 2 }

/-- IP packet of the TCP test frame. -/
def tcpA_ip : IpPkt :=
  { isV4 := true, src := "10.0.0.1", dst := "10.0.0.2", protoNum := 6, len := 40,
    ttl := 64, data := .tcp tcpA_hdr }

/-- Ethernet frame of the TCP test frame. -/
def tcpA_eth : EthFrame := { ethType := 0x0800, body := .ip tcpA_ip }

/-- A well-formed TCP frame. -/
def tcpFrameA : Frame := { ts := 1000, len := 60, eth := some tcpA_eth }

/-- A well-formed UDP frame: IPv4, ports 40000 to 40001. -/
def udpFrameA : Frame :=
  { ts := 1001, len := 80,
    eth := some { ethType := 0x0800,
                  body := .ip { isV4 := true, src := "10.0.0.3", dst := "10.0.0.4",
                                protoNum := 17, len := 60, ttl := 64,
                                data := .udp { sport := 40000, dport := 40001,
                                               ulen := 52 } } } }

/-- A frame whose 4 bytes of garbage make dpkt.ethernet.Ethernet
raise (the Ethernet header needs 14 bytes). -/
def badFrame : Frame := { ts := 1002, len := 4, eth := none }

/-- A UDP frame to port 53 carrying a well-formed DNS query. -/
def dnsUdpFrame : Frame :=
  { ts := 1003, len := 90,
    eth := some { ethType := 0x0800,
                  body := .ip { isV4 := true, src := "10.0.0.5", dst := "8.8.8.8",
                                protoNum := 17, len := 70, ttl := 64,
                                data := .udp { sport := 40002, dport := 53,
                                               ulen := 62 } } } }

/-- A second UDP frame to port 53 carrying a well-formed DNS query. -/
def dnsUdpFrame2 : Frame :=
  { ts := 1004, len := 92,
    eth := some { ethType := 0x0800,
                  body := .ip { isV4 := true, src := "10.0.0.6", dst := "8.8.8.8",
                                protoNum := 17, len := 72, ttl := 64,
                                data := .udp { sport := 40003, dport := 53,
                                               ulen := 64 } } } }


/-- Transport header of the HTTP test frame: destination port 8080. -/
def httpA_hdr : TcpHdr := { sport := 49152, dport := 8080, seq := 1, ack := 1, flags := 24 }

/-- IP packet of the HTTP test frame. -/
def httpA_ip : IpPkt :=
  { isV4 := true, src := "10.0.0.8", dst := "10.0.0.9", protoNum := 6, len := 100,
    ttl := 64, data := .tcp httpA_hdr }

/-- Ethernet frame of the HTTP test frame. -/
def httpA_eth : EthFrame := { ethType := 0x0800, body := .ip httpA_ip }

/-- A TCP frame to port 8080. -/
def httpFrame : Frame := { ts := 1006, len := 120, eth := some httpA_eth }

/-- UDP header of the mDNS test frame. -/
def mdns_hdr : UdpHdr := { sport := 5353, dport := 5353, ulen := 72 }

/-- IP packet of the mDNS test frame. -/
def mdns_ip : IpPkt :=
  { isV4 := true, src := "10.0.0.7", dst := "224.0.0.251", protoNum := 17, len := 80,
    ttl := 255, data := .udp mdns_hdr }

/-- Ethernet frame of the mDNS test frame. -/
def mdns_eth : EthFrame := { ethType := 0x0800, body := .ip mdns_ip }

/-- An mDNS frame: UDP port 5353 on both sides. -/
def mdnsFrame : Frame := { ts := 1005, len := 100, eth := some mdns_eth }

/-- No cancellation request during the packet loop. -/
def noCancel : Nat → Bool := fun _ => false

/-- A transport header (TCP or UDP object) is present as the payload
of the IP packet. -/
def isTransport : IpData → Bool
  | .tcp _ => true
  | .udp _ => true
  | _ => false

/-- A capture of 5000 decodable TCP frames followed by one decodable
UDP frame: processing the first 5000 frames fills the buffer to
batch_size exactly, so one full batch is flushed to the store before
frame 5001. -/
def frames5001 : List Frame := List.replicate 5000 tcpFrameA ++ [udpFrameA]

/-- Zeek dns.log excerpt in headered tabular ASCII form: one record
with ts 1620000000 and AA set (boolean token T). -/
def c4AsciiLines : List String :=
  ["#fields\tts\tAA", "#types\ttime\tbool", "1620000000\tT"]

/-- The same logical record as parsed from a JSON log line
(json.loads of the line with ts 1620000000 and AA true). -/
def c4JsonRecord : PyDict := [("ts", .vInt 1620000000), ("AA", .vBool true)]

/-- A capture id string for the Zeek record tests. -/
def c4PcapId : String := "5a1f2b3c-0000-0000-0000-000000000001"

/-! Helper lemmas about the packet loop. -/

lemma stepFrame_status (f : Frame) (st : St) : (stepFrame f st).status = st.status := by
  obtain ⟨ts, len, eth⟩ := f
  cases eth with
  | none => rfl
  | some e => dsimp only [stepFrame]; split <;> rfl

lemma stepFrame_counter (f : Frame) (st : St) : (stepFrame f st).counter = st.counter + 1 := by
  obtain ⟨ts, len, eth⟩ := f
  cases eth with
  | none => rfl
  | some e => dsimp only [stepFrame]; split <;> rfl

lemma stepFrame_metaRows (f : Frame) (st : St) : (stepFrame f st).metaRows = st.metaRows := by
  obtain ⟨ts, len, eth⟩ := f
  cases eth with
  | none => rfl
  | some e => dsimp only [stepFrame]; split <;> rfl

lemma stepFrame_dnsRows (f : Frame) (st : St) : (stepFrame f st).dnsRows = st.dnsRows := by
  obtain ⟨ts, len, eth⟩ := f
  cases eth with
  | none => rfl
  | some e => dsimp only [stepFrame]; split <;> rfl

/-- One loop iteration with the status check passing and the batch
insert succeeding behaves as stepFrame. -/
lemma loop_cons_step (cancel : Nat → Bool) (f : Frame) (rest : List Frame) (st : St)
    (h1 : st.status ≠ "cancelled") (h2 : cancel (st.counter + 1) = false) :
    loop cancel true (f :: rest) st = loop cancel true rest (stepFrame f st) := by
  obtain ⟨ts, len, eth⟩ := f
  cases eth with
  | none =>
    simp only [loop, stepFrame, h2, Bool.false_eq_true, if_false, if_neg h1]
  | some e =>
    simp only [loop, stepFrame, h2, Bool.false_eq_true, if_false, if_neg h1]
    split <;> rfl

/-- With no cancellation request and all inserts succeeding, the loop
runs to the end and computes runFrames. -/
lemma loop_ok (frames : List Frame) : ∀ st : St, st.status ≠ "cancelled" →
    loop noCancel true frames st = .ok (runFrames frames st) := by
  induction frames with
  | nil => intro st _; rfl
  | cons f rest ih =>
    intro st h
    rw [loop_cons_step noCancel f rest st h rfl, runFrames]
    exact ih (stepFrame f st) (by rw [stepFrame_status]; exact h)

lemma runFrames_status (frames : List Frame) : ∀ st : St,
    (runFrames frames st).status = st.status := by
  induction frames with
  | nil => intro st; rfl
  | cons f rest ih => intro st; rw [runFrames, ih, stepFrame_status]

lemma runFrames_counter (frames : List Frame) : ∀ st : St,
    (runFrames frames st).counter = st.counter + frames.length := by
  induction frames with
  | nil => intro st; rfl
  | cons f rest ih =>
    intro st
    rw [runFrames, ih, stepFrame_counter, List.length_cons]
    omega

lemma runFrames_metaRows (frames : List Frame) : ∀ st : St,
    (runFrames frames st).metaRows = st.metaRows := by
  induction frames with
  | nil => intro st; rfl
  | cons f rest ih => intro st; rw [runFrames, ih, stepFrame_metaRows]

lemma runFrames_dnsRows (frames : List Frame) : ∀ st : St,
    (runFrames frames st).dnsRows = st.dnsRows := by
  induction frames with
  | nil => intro st; rfl
  | cons f rest ih => intro st; rw [runFrames, ih, stepFrame_dnsRows]

lemma rowsOf_cons (c : Nat) (f : Frame) (rest : List Frame) :
    rowsOf c (f :: rest) = rowsOf c [f] ++ rowsOf (c + 1) rest := by
  obtain ⟨ts, len, eth⟩ := f
  cases eth <;> simp [rowsOf]

/-- One loop iteration preserves the split of the produced rows into
flushed full batches (in the store) and an unflushed remainder (in the
buffer). -/
lemma stepFrame_inv (f : Frame) (st : St) (r : List PacketRow)
    (hs : st.stored = flushedOf r) (hb : st.buffer = unflushedOf r) :
    (stepFrame f st).stored = flushedOf (r ++ rowsOf st.counter [f]) ∧
    (stepFrame f st).buffer = unflushedOf (r ++ rowsOf st.counter [f]) := by
  obtain ⟨ts, len, eth⟩ := f
  cases eth with
  | none =>
    simp only [stepFrame, rowsOf, List.append_nil]
    exact ⟨hs, hb⟩
  | some e =>
    have hrows : rowsOf st.counter [Frame.mk ts len (some e)] =
        [processFrame (st.counter + 1) (Frame.mk ts len (some e)) e] := rfl
    set x := processFrame (st.counter + 1) (Frame.mk ts len (some e)) e with hx
    have hn : st.buffer.length = r.length - batchSize * (r.length / batchSize) := by
      rw [hb, unflushedOf, List.length_drop]
    have hle : batchSize * (r.length / batchSize) ≤ r.length := by
      rw [Nat.mul_comm]; exact Nat.div_mul_le_self _ _
    rw [hrows]
    simp only [stepFrame]
    by_cases hc : batchSize ≤ (st.buffer ++ [x]).length
    · rw [if_pos hc]
      have hkey : batchSize * ((r.length + 1) / batchSize) = r.length + 1 := by
        simp only [List.length_append, List.length_cons, List.length_nil, hn,
          batchSize] at hc ⊢
        omega
      constructor
      · show st.stored ++ (st.buffer ++ [x]) = flushedOf (r ++ [x])
        rw [flushedOf, List.length_append, List.length_cons, List.length_nil, hkey,
          List.take_of_length_le (by simp), hs, hb, flushedOf, unflushedOf,
          ← List.append_assoc, List.take_append_drop]
      · show ([] : List PacketRow) = unflushedOf (r ++ [x])
        rw [unflushedOf, List.length_append, List.length_cons, List.length_nil, hkey,
          List.drop_eq_nil_of_le (by simp)]
    · rw [if_neg hc]
      have hkey : batchSize * ((r.length + 1) / batchSize) =
          batchSize * (r.length / batchSize) := by
        simp only [List.length_append, List.length_cons, List.length_nil, hn,
          batchSize] at hc ⊢
        omega
      constructor
      · show st.stored = flushedOf (r ++ [x])
        rw [flushedOf, List.length_append, List.length_cons, List.length_nil, hkey,
          List.take_append_of_le_length hle, hs, flushedOf]
      · show st.buffer ++ [x] = unflushedOf (r ++ [x])
        rw [unflushedOf, List.length_append, List.length_cons, List.length_nil, hkey,
          List.drop_append_of_le_length hle, hb, unflushedOf]

/-- The loop invariant over a whole run: after processing any list of
frames, the store holds the full batches of the rows produced so far
and the buffer holds the remainder. -/
lemma runFrames_inv (frames : List Frame) : ∀ (st : St) (r : List PacketRow),
    st.stored = flushedOf r → st.buffer = unflushedOf r →
    (runFrames frames st).stored = flushedOf (r ++ rowsOf st.counter frames) ∧
    (runFrames frames st).buffer = unflushedOf (r ++ rowsOf st.counter frames) := by
  induction frames with
  | nil =>
    intro st r hs hb
    simp only [runFrames, rowsOf, List.append_nil]
    exact ⟨hs, hb⟩
  | cons f rest ih =>
    intro st r hs hb
    have h1 := stepFrame_inv f st r hs hb
    have h2 := ih (stepFrame f st) (r ++ rowsOf st.counter [f]) h1.1 h1.2
    rw [stepFrame_counter, List.append_assoc, ← rowsOf_cons] at h2
    rw [runFrames]
    exact h2

/-- Starting from the empty store and buffer, a full uncancelled run
leaves exactly the produced rows split between store and buffer. -/
lemma runFrames_rows (frames : List Frame) (st : St) (hs : st.stored = [])
    (hb : st.buffer = []) (hc : st.counter = 0) :
    (runFrames frames st).stored ++ (runFrames frames st).buffer = rowsOf 0 frames := by
  have h := runFrames_inv frames st []
    (by rw [hs]; rfl) (by rw [hb]; rfl)
  rw [hc, List.nil_append] at h
  rw [h.1, h.2, flushedOf, unflushedOf, List.take_append_drop]

/-- A cancellation request arriving before frame k (and only then) is
observed exactly at frame k: the loop returns early with the state of
the first k-1 frames and status cancelled. -/
lemma loop_cancel (k : Nat) (frames : List Frame) : ∀ st : St,
    st.status ≠ "cancelled" → st.counter < k → k ≤ st.counter + frames.length →
    loop (fun i => i == k) true frames st =
      .cancelled { runFrames (frames.take (k - st.counter - 1)) st with
                   status := "cancelled" } := by
  induction frames with
  | nil =>
    intro st h1 h2 h3
    simp only [List.length_nil, Nat.add_zero] at h3
    omega
  | cons f rest ih =>
    intro st h1 h2 h3
    by_cases hk : st.counter + 1 = k
    · have h0 : k - st.counter - 1 = 0 := by omega
      rw [h0, List.take_zero]
      have hr : runFrames [] st = st := rfl
      rw [hr]
      simp only [loop, hk, beq_self_eq_true, if_true]
    · have hck : ((st.counter + 1) == k) = false := by
        simp only [beq_eq_false_iff_ne, ne_eq]
        exact hk
      rw [loop_cons_step _ f rest st h1 hck]
      have hst := stepFrame_status f st
      have hco := stepFrame_counter f st
      have ihh := ih (stepFrame f st) (by rw [hst]; exact h1)
        (by rw [hco]; omega)
        (by rw [hco]; simp only [List.length_cons] at h3; omega)
      rw [ihh]
      have htake : (f :: rest).take (k - st.counter - 1) =
          f :: rest.take (k - st.counter - 2) := by
        have hsucc : k - st.counter - 1 = (k - st.counter - 2) + 1 := by omega
        rw [hsucc, List.take_succ_cons]
      rw [htake]
      have hrun : runFrames (f :: rest.take (k - st.counter - 2)) st =
          runFrames (rest.take (k - st.counter - 2)) (stepFrame f st) := rfl
      rw [hrun]
      have hidx : k - (stepFrame f st).counter - 1 = k - st.counter - 2 := by
        rw [hco]; omega
      rw [hidx]

/-- With the packets insert raising, the loop either finishes without
ever flushing or aborts with the insert exception; it never returns
the cancelled outcome when no cancellation is requested. -/
lemma loop_fail (frames : List Frame) : ∀ st : St, st.status ≠ "cancelled" →
    (∃ st2, loop noCancel false frames st = .ok st2) ∨
    (∃ st2, loop noCancel false frames st = .insertError st2) := by
  induction frames with
  | nil => intro st _; exact .inl ⟨st, by simp [loop]⟩
  | cons f rest ih =>
    intro st h
    obtain ⟨ts, len, eth⟩ := f
    cases eth with
    | none =>
      simp only [loop, noCancel, Bool.false_eq_true, if_false, if_neg h]
      exact ih _ h
    | some e =>
      simp only [loop, noCancel, Bool.false_eq_true, if_false, if_neg h]
      split
      · exact .inr ⟨_, rfl⟩
      · exact ih _ h

lemma runZeek_stored (zf zok : Bool) (n : Nat) (st : St) :
    (runZeekAnalysis zf zok n st).stored = st.stored := by
  cases zf <;> cases zok <;> simp [runZeekAnalysis, ingestZeekDns]

lemma runZeek_buffer (zf zok : Bool) (n : Nat) (st : St) :
    (runZeekAnalysis zf zok n st).buffer = st.buffer := by
  cases zf <;> cases zok <;> simp [runZeekAnalysis, ingestZeekDns]

lemma runZeek_counter (zf zok : Bool) (n : Nat) (st : St) :
    (runZeekAnalysis zf zok n st).counter = st.counter := by
  cases zf <;> cases zok <;> simp [runZeekAnalysis, ingestZeekDns]

lemma runZeek_metaRows (zf zok : Bool) (n : Nat) (st : St) :
    (runZeekAnalysis zf zok n st).metaRows = st.metaRows := by
  cases zf <;> cases zok <;> simp [runZeekAnalysis, ingestZeekDns]

lemma runZeek_dnsRows (zf zok : Bool) (n : Nat) (st : St) :
    (runZeekAnalysis zf zok n st).dnsRows =
      st.dnsRows + (if zf then (if zok then n else 0) else 0) := by
  cases zf <;> cases zok <;> simp [runZeekAnalysis, ingestZeekDns]

/-- The state in which the packet loop starts. -/
def loopEntry (zf zok : Bool) (n : Nat) (cz : Bool) : St :=
  let st0 : St := { status := "processing", buffer := [], stored := [], dnsRows := 0,
                    metaRows := 0, packetCount := 0, counter := 0, totalBytes := 0 }
  let st1 := runZeekAnalysis zf zok n st0
  let st2 := if cz then { st1 with status := "cancelled" } else st1
  { st2 with status := "processing_packets" }

lemma parse_as_loop (frames : List Frame) (zf zok : Bool) (n : Nat) (cz : Bool)
    (cancel : Nat → Bool) (insertOk : Bool) :
    parseAndIngestPcapSync frames zf zok n cz cancel insertOk =
      (match loop cancel insertOk frames (loopEntry zf zok n cz) with
       | .cancelled st => st
       | .insertError st => { st with status := "failed" }
       | .ok st =>
         if insertOk then
           let st4 : St := if st.buffer.isEmpty then st
                           else { st with stored := st.stored ++ st.buffer, buffer := [] }
           { st4 with metaRows := st4.metaRows + 1, status := "completed" }
         else { st with status := "failed" }) := rfl

lemma loopEntry_status (zf zok : Bool) (n : Nat) (cz : Bool) :
    (loopEntry zf zok n cz).status = "processing_packets" := by
  cases cz <;> rfl

lemma loopEntry_stored (zf zok : Bool) (n : Nat) (cz : Bool) :
    (loopEntry zf zok n cz).stored = [] := by
  cases cz <;> simp [loopEntry, runZeek_stored]

lemma loopEntry_buffer (zf zok : Bool) (n : Nat) (cz : Bool) :
    (loopEntry zf zok n cz).buffer = [] := by
  cases cz <;> simp [loopEntry, runZeek_buffer]

lemma loopEntry_counter (zf zok : Bool) (n : Nat) (cz : Bool) :
    (loopEntry zf zok n cz).counter = 0 := by
  cases cz <;> simp [loopEntry, runZeek_counter]

lemma loopEntry_metaRows (zf zok : Bool) (n : Nat) (cz : Bool) :
    (loopEntry zf zok n cz).metaRows = 0 := by
  cases cz <;> simp [loopEntry, runZeek_metaRows]

lemma loopEntry_dnsRows (zf zok : Bool) (n : Nat) (cz : Bool) :
    (loopEntry zf zok n cz).dnsRows = (if zf then (if zok then n else 0) else 0) := by
  cases cz <;> simp [loopEntry, runZeek_dnsRows]

/-- A run with no cancellation and all inserts succeeding completes:
status completed, exactly the rows of the decodable frames in the
store, one metadata row, and the enrichment rows of the Zeek phase. -/
lemma parse_ok_spec (frames : List Frame) (zf zok : Bool) (n : Nat) :
    (parseAndIngestPcapSync frames zf zok n false noCancel true).status = "completed" ∧
    (parseAndIngestPcapSync frames zf zok n false noCancel true).stored = rowsOf 0 frames ∧
    (parseAndIngestPcapSync frames zf zok n false noCancel true).metaRows = 1 ∧
    (parseAndIngestPcapSync frames zf zok n false noCancel true).dnsRows =
      (if zf then (if zok then n else 0) else 0) := by
  rw [parse_as_loop]
  rw [loop_ok frames (loopEntry zf zok n false)
    (by rw [loopEntry_status]; decide)]
  have hrows := runFrames_rows frames (loopEntry zf zok n false)
    (loopEntry_stored zf zok n false) (loopEntry_buffer zf zok n false)
    (loopEntry_counter zf zok n false)
  have hmeta := runFrames_metaRows frames (loopEntry zf zok n false)
  have hdns := runFrames_dnsRows frames (loopEntry zf zok n false)
  rw [loopEntry_metaRows] at hmeta
  rw [loopEntry_dnsRows] at hdns
  by_cases hbe : (runFrames frames (loopEntry zf zok n false)).buffer.isEmpty
  · have hbempty : (runFrames frames (loopEntry zf zok n false)).buffer = [] :=
      List.isEmpty_iff.mp hbe
    rw [hbempty, List.append_nil] at hrows
    simp [hbe, hrows, hmeta, hdns]
  · simp [hbe, hrows, hmeta, hdns]

/-- A run whose cancellation request arrives before frame k of the
packet loop (1-based, k within the capture) stops there: status
cancelled, no metadata row, only the first k-1 frames counted, and the
store holding exactly the full batches flushed before the request. -/
lemma parse_cancel_spec (frames : List Frame) (zf zok : Bool) (n k : Nat)
    (h1 : 1 ≤ k) (h2 : k ≤ frames.length) :
    (parseAndIngestPcapSync frames zf zok n false (fun i => i == k) true).status
      = "cancelled" ∧
    (parseAndIngestPcapSync frames zf zok n false (fun i => i == k) true).metaRows = 0 ∧
    (parseAndIngestPcapSync frames zf zok n false (fun i => i == k) true).counter = k - 1 ∧
    (parseAndIngestPcapSync frames zf zok n false (fun i => i == k) true).stored
      = flushedOf (rowsOf 0 (frames.take (k - 1))) := by
  rw [parse_as_loop]
  rw [loop_cancel k frames (loopEntry zf zok n false)
    (by rw [loopEntry_status]; decide)
    (by rw [loopEntry_counter]; omega)
    (by rw [loopEntry_counter]; omega)]
  dsimp only
  rw [loopEntry_counter]
  have htake : k - 0 - 1 = k - 1 := by omega
  rw [htake]
  refine ⟨rfl, ?_, ?_, ?_⟩
  · show (runFrames (frames.take (k - 1)) (loopEntry zf zok n false)).metaRows = 0
    rw [runFrames_metaRows, loopEntry_metaRows]
  · show (runFrames (frames.take (k - 1)) (loopEntry zf zok n false)).counter = k - 1
    rw [runFrames_counter, loopEntry_counter, List.length_take]
    omega
  · show (runFrames (frames.take (k - 1)) (loopEntry zf zok n false)).stored
      = flushedOf (rowsOf 0 (frames.take (k - 1)))
    have h := runFrames_inv (frames.take (k - 1)) (loopEntry zf zok n false) []
      (by rw [loopEntry_stored]; rfl) (by rw [loopEntry_buffer]; rfl)
    rw [loopEntry_counter, List.nil_append] at h
    exact h.1

/-- With the packets (or metadata) insert raising and no cancellation,
every run ends with status failed. -/
lemma parse_fail_spec (frames : List Frame) (zf zok : Bool) (n : Nat) :
    (parseAndIngestPcapSync frames zf zok n false noCancel false).status = "failed" := by
  rw [parse_as_loop]
  rcases loop_fail frames (loopEntry zf zok n false)
    (by rw [loopEntry_status]; decide) with ⟨st2, hok⟩ | ⟨st2, herr⟩
  · rw [hok]; simp
  · rw [herr]

lemma rowsOf_length (frames : List Frame) : ∀ c : Nat,
    (rowsOf c frames).length = countDecodable frames := by
  induction frames with
  | nil => intro c; rfl
  | cons f rest ih =>
    intro c
    obtain ⟨ts, len, eth⟩ := f
    cases eth <;> simp [rowsOf, countDecodable, List.filter] at ih ⊢ <;> exact ih (c + 1)

lemma processFrame_packetNumber (num : Nat) (f : Frame) (e : EthFrame) :
    (processFrame num f e).packetNumber = num := by
  unfold processFrame
  split
  · split <;> rfl
  · split <;> rfl

lemma rowsOf_map_packetNumber (frames : List Frame) : ∀ c : Nat,
    (∀ f ∈ frames, f.eth.isSome) →
    (rowsOf c frames).map (fun r => r.packetNumber) = List.range' (c + 1) frames.length := by
  induction frames with
  | nil => intro c _; rfl
  | cons f rest ih =>
    intro c hall
    obtain ⟨ts, len, eth⟩ := f
    cases eth with
    | none => exact absurd (hall _ (List.mem_cons_self _ _)) (by simp)
    | some e =>
      have hr := ih (c + 1) (fun g hg => hall g (List.mem_cons_of_mem _ hg))
      simp only [rowsOf, List.map_cons, List.length_cons, List.range'_succ,
        processFrame_packetNumber, hr]

lemma dns_ne_ipLayerName (p : IpPkt) : ("dns" == ipLayerName p) = false := by
  unfold ipLayerName
  split
  · rfl
  · rfl

lemma layers_no_dns (x : String) (rest2 : List String)
    (h1 : ("dns" == x) = false) (h2 : List.elem "dns" rest2 = false) :
    ((["frame", "eth", x] ++ rest2).contains "dns") = false := by
  simp only [List.contains, List.cons_append, List.nil_append, List.elem_cons, h1, h2]
  rfl

/-- The layers the loop writes into layers_json are only frame, eth,
ip or ipv6, tcp and udp: a dns layer is never written. -/
lemma processFrame_no_dns (num : Nat) (f : Frame) (e : EthFrame) :
    ((processFrame num f e).layerNames.contains "dns") = false := by
  unfold processFrame
  split
  · split
    · refine layers_no_dns _ _ (dns_ne_ipLayerName _) ?_
      repeat' split
      all_goals rfl
    · refine layers_no_dns _ _ (dns_ne_ipLayerName _) ?_
      repeat' split
      all_goals rfl
    · exact layers_no_dns _ _ (dns_ne_ipLayerName _) rfl
    · exact layers_no_dns _ _ (dns_ne_ipLayerName _) rfl
  · split
    · rfl
    · rfl

lemma countDecodable_replicate (n : Nat) (f : Frame) (h : f.eth.isSome = true) :
    countDecodable (List.replicate n f) = n := by
  induction n with
  | zero => rfl
  | succ m ih =>
    unfold countDecodable at ih ⊢
    rw [List.replicate_succ, List.filter_cons]
    simp only [h, if_true, List.length_cons, ih]

lemma rowsOf_no_dns (frames : List Frame) : ∀ (c : Nat) (r : PacketRow),
    r ∈ rowsOf c frames → (r.layerNames.contains "dns") = false := by
  induction frames with
  | nil => intro c r hr; simp [rowsOf] at hr
  | cons f rest ih =>
    intro c r hr
    obtain ⟨ts, len, eth⟩ := f
    cases eth with
    | none => exact ih (c + 1) r (by simpa [rowsOf] using hr)
    | some e =>
      rcases List.mem_cons.mp (by simpa [rowsOf] using hr) with h | h
      · rw [h]; exact processFrame_no_dns _ _ _
      · exact ih (c + 1) r h

lemma reprocess_zero (l : List PacketRow)
    (h : ∀ r ∈ l, (r.layerNames.contains "dns") = false) : reprocessDnsCount l = 0 := by
  unfold reprocessDnsCount
  rw [List.length_eq_zero, List.filter_eq_nil_iff]
  intro r hr hcon
  rw [Bool.and_eq_true] at hcon
  rw [h r hr] at hcon
  exact Bool.false_ne_true hcon.2

/-! The claims. -/

/-- C1, counterexample: for the capture [valid TCP frame, 4 bytes of
garbage, valid UDP frame] the pipeline writes only 2 PacketDescriptor
rows, labeled TCP and UDP — not the 3 rows with a middle fallback
"Other" row the claim asserts (the bad frame is skipped by the
except/continue at the Ethernet decode, not recorded). -/
theorem C1_counterexample :
    (parseAndIngestPcapSync [tcpFrameA, badFrame, udpFrameA] false true 0 false
      noCancel true).stored.map (fun r => r.protocol) = ["TCP", "UDP"] ∧
    (parseAndIngestPcapSync [tcpFrameA, badFrame, udpFrameA] false true 0 false
      noCancel true).stored.length = 2 ∧
    (["TCP", "UDP"] : List String) ≠ ["TCP", "Other", "UDP"] ∧
    (parseAndIngestPcapSync [tcpFrameA, badFrame, udpFrameA] false true 0 false
      noCancel true).status = "completed" :=
  ⟨rfl, rfl, by decide, rfl⟩

/-- C1, amended: a frame whose raw bytes fail Ethernet decoding is
skipped — no PacketDescriptor row is recorded for it — and ingestion
continues with the following frames; the job always completes, writes
exactly one row per decodable frame, and writes its metadata row.  A
single bad frame never aborts the job. -/
theorem C1_amended (frames : List Frame) :
    (parseAndIngestPcapSync frames false true 0 false noCancel true).status = "completed" ∧
    (parseAndIngestPcapSync frames false true 0 false noCancel true).stored =
      rowsOf 0 frames ∧
    (parseAndIngestPcapSync frames false true 0 false noCancel true).stored.length =
      countDecodable frames ∧
    (parseAndIngestPcapSync frames false true 0 false noCancel true).metaRows = 1 := by
  have hp := parse_ok_spec frames false true 0
  exact ⟨hp.1, hp.2.1, by rw [hp.2.1, rowsOf_length], hp.2.2.1⟩

/-- C2, counterexample: for the capture [valid TCP, garbage, valid
UDP] with N = 2 successfully decoded frames, the written packet
numbers are [1, 3] — packet_num_counter increments before the decode
attempt, so a decode failure leaves a gap — not the contiguous {1..2}
the claim asserts. -/
theorem C2_counterexample :
    (parseAndIngestPcapSync [tcpFrameA, badFrame, udpFrameA] false true 0 false
      noCancel true).stored.map (fun r => r.packetNumber) = [1, 3] ∧
    countDecodable [tcpFrameA, badFrame, udpFrameA] = 2 ∧
    ([1, 3] : List Nat) ≠ [1, 2] :=
  ⟨rfl, rfl, by decide⟩

/-- C2, amended: in a run finishing without cancellation or failure in
which every frame decodes successfully, the written packet numbers are
exactly 1..N in order, with no gaps and no duplicates.  (When a frame
fails to decode, the numbers are still strictly increasing but skip
that frame's position.) -/
theorem C2_amended (frames : List Frame)
    (h : ∀ f ∈ frames, f.eth.isSome = true) :
    (parseAndIngestPcapSync frames false true 0 false noCancel true).stored.map
      (fun r => r.packetNumber) = List.range' 1 frames.length := by
  rw [(parse_ok_spec frames false true 0).2.1]
  exact rowsOf_map_packetNumber frames 0 h

/-- C2, witness for the amended theorem at a concrete 2-frame capture. -/
theorem C2_witness :
    (parseAndIngestPcapSync [tcpFrameA, udpFrameA] false true 0 false noCancel
      true).stored.map (fun r => r.packetNumber) =
      List.range' 1 [tcpFrameA, udpFrameA].length :=
  C2_amended [tcpFrameA, udpFrameA] (by decide)

/-- C3, counterexample: a capture of exactly 2 UDP frames on port 53
carrying well-formed DNS queries yields 2 PacketDescriptor rows
labeled DNS but 0 DnsRecord rows from the direct-decode pass (with
enrichment absent), and even the manual reprocessing script emits 0
records because the stored layers never include a dns layer — not the
2 DnsRecord rows the claim asserts. -/
theorem C3_counterexample :
    (parseAndIngestPcapSync [dnsUdpFrame, dnsUdpFrame2] false true 0 false
      noCancel true).stored.map (fun r => r.protocol) = ["DNS", "DNS"] ∧
    (parseAndIngestPcapSync [dnsUdpFrame, dnsUdpFrame2] false true 0 false
      noCancel true).dnsRows = 0 ∧
    reprocessDnsCount (parseAndIngestPcapSync [dnsUdpFrame, dnsUdpFrame2] false true 0
      false noCancel true).stored = 0 ∧
    (0 : Nat) ≠ 2 :=
  ⟨rfl, rfl, rfl, by decide⟩

/-- C3, amended: the direct-decode pass emits no DnsRecord for
DNS-classified frames — it only writes PacketDescriptor rows labeled
DNS; dns_log rows come only from the Zeek enrichment phase, and the
manual reprocessing script, which requires a dns layer in the stored
layers_json, finds none in rows this pipeline writes and emits 0
records. -/
theorem C3_amended (frames : List Frame) :
    (parseAndIngestPcapSync frames false true 0 false noCancel true).dnsRows = 0 ∧
    ((parseAndIngestPcapSync frames false true 0 false noCancel true).stored.all
      (fun r => !(r.layerNames.contains "dns"))) = true ∧
    reprocessDnsCount
      (parseAndIngestPcapSync frames false true 0 false noCancel true).stored = 0 := by
  have hp := parse_ok_spec frames false true 0
  refine ⟨by simpa using hp.2.2.2, ?_, ?_⟩
  · rw [hp.2.1, List.all_eq_true]
    intro r hr
    rw [rowsOf_no_dns frames 0 r hr]
    rfl
  · rw [hp.2.1]
    exact reprocess_zero _ (rowsOf_no_dns frames 0)

/-- C4, code bug: the same logical dns.log record — ASCII line with
boolean token T versus JSON line with native boolean true — does not
coerce to identical values: the dns_log branch of process_zeek_record
has no boolean coercion (unlike conn_log and ssl_log), so the ASCII
record keeps the string "T" in column AA while the JSON record keeps
the boolean true, although the dns_log store schema declares AA as
Bool. -/
theorem C4_divergence :
    parseZeekAsciiLines c4AsciiLines [] =
      [[("ts", PyVal.vStr "1620000000"), ("AA", PyVal.vStr "T")]] ∧
    dictGet (processZeekRecordDns
      [("ts", PyVal.vStr "1620000000"), ("AA", PyVal.vStr "T")] c4PcapId) "AA" =
      some (PyVal.vStr "T") ∧
    dictGet (processZeekRecordDns c4JsonRecord c4PcapId) "AA" =
      some (PyVal.vBool true) ∧
    some (PyVal.vStr "T") ≠ some (PyVal.vBool true) :=
  ⟨rfl, rfl, rfl, by simp⟩

/-- C5, counterexample: a UDP frame on port 5353 (mDNS) is classified
as plain "UDP", not as a DNS-family label: the code maps no well-known
port other than 80/8080/443/53. -/
theorem C5_counterexample :
    (parseAndIngestPcapSync [mdnsFrame] false true 0 false noCancel true).stored.map
      (fun r => r.protocol) = ["UDP"] ∧
    ("UDP" : String) ≠ "DNS" :=
  ⟨rfl, by decide⟩

/-- C5, amended: for a frame with a TCP header, the port heuristics
map source or destination 80/8080 to HTTP, 443 to TLS and 53 to DNS,
in that precedence, and otherwise leave TCP; for a UDP header only 53
maps to DNS, otherwise UDP.  No other well-known port (5353, 5355,
137, 67, 68, 123, 1900, 22) is mapped. -/
theorem C5_amended :
    (∀ (num : Nat) (f : Frame) (e : EthFrame) (p : IpPkt) (t : TcpHdr),
      findIp e.ethType e.body = some p → p.data = .tcp t →
      (processFrame num f e).protocol =
        (if t.sport == 80 || t.dport == 80 || t.sport == 8080 || t.dport == 8080 then
          "HTTP"
         else if t.sport == 443 || t.dport == 443 then "TLS"
         else if t.sport == 53 || t.dport == 53 then "DNS"
         else "TCP")) ∧
    (∀ (num : Nat) (f : Frame) (e : EthFrame) (p : IpPkt) (u : UdpHdr),
      findIp e.ethType e.body = some p → p.data = .udp u →
      (processFrame num f e).protocol =
        (if u.sport == 53 || u.dport == 53 then "DNS" else "UDP")) := by
  constructor
  · intro num f e p t h1 h2
    unfold processFrame
    rw [h1]
    dsimp only
    rw [h2]
  · intro num f e p u h1 h2
    unfold processFrame
    rw [h1]
    dsimp only
    rw [h2]

/-- C5, witness for the amended theorem: a TCP frame to port 8080. -/
theorem C5_witness :
    (processFrame 1 httpFrame httpA_eth).protocol =
      (if httpA_hdr.sport == 80 || httpA_hdr.dport == 80 ||
          httpA_hdr.sport == 8080 || httpA_hdr.dport == 8080 then "HTTP"
       else if httpA_hdr.sport == 443 || httpA_hdr.dport == 443 then "TLS"
       else if httpA_hdr.sport == 53 || httpA_hdr.dport == 53 then "DNS"
       else "TCP") :=
  C5_amended.1 1 httpFrame httpA_eth httpA_ip httpA_hdr rfl rfl

/-- C6, counterexample: cancelled after K = 5000 frames (one full
batch flushed), the job ends cancelled with no metadata row, but the
5000 already-flushed PacketDescriptor rows remain in the store — no
deletion ever happens, so the store never reaches zero rows for the
capture. -/
theorem C6_counterexample :
    (parseAndIngestPcapSync frames5001 false true 0 false (fun i => i == 5001)
      true).status = "cancelled" ∧
    (parseAndIngestPcapSync frames5001 false true 0 false (fun i => i == 5001)
      true).metaRows = 0 ∧
    (parseAndIngestPcapSync frames5001 false true 0 false (fun i => i == 5001)
      true).stored.length = 5000 ∧
    (5000 : Nat) ≠ 0 := by
  have hlen : frames5001.length = 5001 := by
    rw [frames5001, List.length_append, List.length_replicate]
    rfl
  have h := parse_cancel_spec frames5001 false true 0 5001 (by decide) (by rw [hlen])
  refine ⟨h.1, h.2.1, ?_, by decide⟩
  rw [h.2.2.2]
  have htake : frames5001.take (5001 - 1) = List.replicate 5000 tcpFrameA := by
    show (List.replicate 5000 tcpFrameA ++ [udpFrameA]).take 5000 = _
    rw [List.take_append_of_le_length (by rw [List.length_replicate]),
      List.take_of_length_le (by rw [List.length_replicate])]
  rw [htake]
  have hlen2 : (rowsOf 0 (List.replicate 5000 tcpFrameA)).length = 5000 := by
    rw [rowsOf_length]
    exact countDecodable_replicate 5000 tcpFrameA rfl
  rw [flushedOf, List.length_take, hlen2]
  simp [batchSize]

/-- C6, amended: cancelling a running job after K < N frames leaves
status cancelled, writes no CaptureMetadata row and reads no further
frames — but rows already flushed for the capture are NOT deleted: the
store keeps exactly the full batches flushed before the cancellation
point (only the unflushed buffer is discarded), and no later step
removes them. -/
theorem C6_amended (frames : List Frame) (k : Nat) (zf zok : Bool) (n : Nat)
    (h1 : 1 ≤ k) (h2 : k ≤ frames.length) :
    (parseAndIngestPcapSync frames zf zok n false (fun i => i == k) true).status
      = "cancelled" ∧
    (parseAndIngestPcapSync frames zf zok n false (fun i => i == k) true).metaRows = 0 ∧
    (parseAndIngestPcapSync frames zf zok n false (fun i => i == k) true).counter
      = k - 1 ∧
    (parseAndIngestPcapSync frames zf zok n false (fun i => i == k) true).stored
      = flushedOf (rowsOf 0 (frames.take (k - 1))) :=
  parse_cancel_spec frames zf zok n k h1 h2

/-- C6, witness for the amended theorem at a concrete 2-frame capture
cancelled before frame 2. -/
theorem C6_witness :
    (parseAndIngestPcapSync [tcpFrameA, udpFrameA] false true 0 false
      (fun i => i == 2) true).status = "cancelled" ∧
    (parseAndIngestPcapSync [tcpFrameA, udpFrameA] false true 0 false
      (fun i => i == 2) true).metaRows = 0 ∧
    (parseAndIngestPcapSync [tcpFrameA, udpFrameA] false true 0 false
      (fun i => i == 2) true).counter = 2 - 1 ∧
    (parseAndIngestPcapSync [tcpFrameA, udpFrameA] false true 0 false
      (fun i => i == 2) true).stored =
      flushedOf (rowsOf 0 ([tcpFrameA, udpFrameA].take (2 - 1))) :=
  C6_amended [tcpFrameA, udpFrameA] 2 false true 0 (by decide) (by decide)

/-- C7, counterexample: an enrichment (dns.log) batch flush failure is
not retried and does not fail the job — the batch is discarded (its 3
records vanish) and the run still ends completed. -/
theorem C7_counterexample :
    (parseAndIngestPcapSync [tcpFrameA] true false 3 false noCancel true).status
      = "completed" ∧
    (parseAndIngestPcapSync [tcpFrameA] true false 3 false noCancel true).dnsRows = 0 ∧
    ¬((parseAndIngestPcapSync [tcpFrameA] true false 3 false noCancel true).status
      = "failed") :=
  ⟨rfl, rfl, by decide⟩

/-- C7, amended: no flush is retried.  A packets (or metadata) batch
insert failure is not caught: the job immediately transitions to
failed, surfaced via job status.  An enrichment batch insert failure
is caught and the batch discarded: the run behaves exactly as if the
enrichment had produced no records, and the job continues. -/
theorem C7_amended :
    (∀ (frames : List Frame) (zf zok : Bool) (n : Nat),
      (parseAndIngestPcapSync frames zf zok n false noCancel false).status = "failed") ∧
    (∀ (frames : List Frame) (n : Nat),
      parseAndIngestPcapSync frames true false n false noCancel true =
        parseAndIngestPcapSync frames true true 0 false noCancel true) := by
  constructor
  · intro frames zf zok n
    exact parse_fail_spec frames zf zok n
  · intro frames n
    rfl

/-- C8, code bug: the synthetic session identifier is built from
Python's hash() of a concatenated string; hash on str is salted per
process (PYTHONHASHSEED), so the uid is a function of the process's
hash function, not of the six fields alone — two processes whose hash
functions differ on the concatenation produce different uids for the
same record, contradicting the claimed cross-process determinism. -/
theorem C8_divergence :
    mkUid (fun _ => 0) "10.0.0.1" 12345 "8.8.8.8" 53 4660 "2021-05-03 00:00:00"
      = "C00000000" ∧
    mkUid (fun _ => 1) "10.0.0.1" 12345 "8.8.8.8" 53 4660 "2021-05-03 00:00:00"
      = "C00000001" ∧
    ("C00000000" : String) ≠ "C00000001" :=
  ⟨rfl, rfl, by decide⟩

/-- C9, confirmed: whenever the decoded frame carries a transport
header (a parsed TCP or UDP object as the IP payload), the final
protocol label is TCP, UDP or a more specific application label
(HTTP, TLS, DNS) — never the fallback "Other". -/
theorem C9_transport_label (num : Nat) (f : Frame) (e : EthFrame) (p : IpPkt)
    (h1 : findIp e.ethType e.body = some p) (h2 : isTransport p.data = true) :
    (processFrame num f e).protocol ≠ "Other" ∧
    ((processFrame num f e).protocol = "TCP" ∨ (processFrame num f e).protocol = "UDP" ∨
     (processFrame num f e).protocol = "HTTP" ∨ (processFrame num f e).protocol = "TLS" ∨
     (processFrame num f e).protocol = "DNS") := by
  cases hd : p.data with
  | tcp t =>
    unfold processFrame
    rw [h1]
    dsimp only
    rw [hd]
    dsimp only
    constructor
    · repeat' split
      all_goals decide
    · repeat' split
      all_goals decide
  | udp u =>
    unfold processFrame
    rw [h1]
    dsimp only
    rw [hd]
    dsimp only
    constructor
    · repeat' split
      all_goals decide
    · repeat' split
      all_goals decide
  | icmp ty code => simp [isTransport, hd] at h2
  | raw => simp [isTransport, hd] at h2

/-- C9, witness at a concrete TCP frame. -/
theorem C9_witness :
    (processFrame 1 tcpFrameA tcpA_eth).protocol ≠ "Other" ∧
    ((processFrame 1 tcpFrameA tcpA_eth).protocol = "TCP" ∨
     (processFrame 1 tcpFrameA tcpA_eth).protocol = "UDP" ∨
     (processFrame 1 tcpFrameA tcpA_eth).protocol = "HTTP" ∨
     (processFrame 1 tcpFrameA tcpA_eth).protocol = "TLS" ∨
     (processFrame 1 tcpFrameA tcpA_eth).protocol = "DNS") :=
  C9_transport_label 1 tcpFrameA tcpA_eth tcpA_ip rfl rfl

/-- C10, counterexample: a cancellation arriving during the enrichment
phase is lost — the unconditional status write before the packet loop
overwrites it — so the job does not stop at the first frame iteration:
it processes the frame, writes its PacketDescriptor row, the metadata
row, and ends completed (with the enrichment row also written). -/
theorem C10_counterexample :
    (parseAndIngestPcapSync [tcpFrameA] true true 1 true noCancel true).status
      = "completed" ∧
    (parseAndIngestPcapSync [tcpFrameA] true true 1 true noCancel true).stored.length
      = 1 ∧
    (parseAndIngestPcapSync [tcpFrameA] true true 1 true noCancel true).metaRows = 1 ∧
    (parseAndIngestPcapSync [tcpFrameA] true true 1 true noCancel true).dnsRows = 1 :=
  ⟨rfl, rfl, rfl, rfl⟩

/-- C10, amended: a cancellation set before or during the enrichment
phase has no effect at all: it is overwritten by the phase status
writes (analyzing_zeek when the tool is found, then unconditionally
processing_packets before the loop), and the run is bit-for-bit the
run without that cancellation — all enrichment rows, all packet rows
and the metadata row are written.  Only a cancellation arriving after
the processing_packets write is observed, at the next frame
iteration. -/
theorem C10_amended (frames : List Frame) (zf zok : Bool) (n : Nat)
    (cancel : Nat → Bool) (insertOk : Bool) :
    parseAndIngestPcapSync frames zf zok n true cancel insertOk =
      parseAndIngestPcapSync frames zf zok n false cancel insertOk := rfl

end Pcap
